import Mathlib

/-!
Verification of the stop-grouping and monitored-arrival-aggregation core of the
CTA transit tracker frontend.  The definitions below are shallow embeddings of
the functions in frontend/src/App.tsx and the components StopsMap, StopsList,
ArrivalsList and LocationSettings; numeric coordinate fields are modelled as
rationals, stop identifiers as integers, and the optional related_stop_ids
field as an Option of a list of integers (absent means undefined in the
source).  Theorems about the claims of the specification follow the
definitions.
-/

namespace CTA

/-- A transit stop as in the shared Stop interface of the frontend (App.tsx,
StopsMap.tsx): integer stop_id, stop_name, coordinates, route codes, distance
from the search origin, and an optional list of related stop ids attached at
selection time. -/
structure Stop where
  stop_id : Int
  stop_name : String
  latitude : ℚ
  longitude : ℚ
  routes : List String
  distance : ℚ
  related_stop_ids : Option (List Int)
  deriving DecidableEq, Repr

/-- An arrival prediction as in the Arrival interface of ArrivalsList
(StopsList.tsx): route code, destination string, scheduled time string,
integer minutes until arrival, delay flag, optional route color, and the
stop id it was reported against. -/
structure Arrival where
  route : String
  destination : String
  arrival_time : String
  minutes : Int
  is_delayed : Bool
  route_color : Option String
  stop_id : Int
  deriving DecidableEq, Repr

namespace App

/-- The membership check inside handleStopSelect in App.tsx: the selected stop
conflicts with the previously monitored list when a monitored stop has its
exact stop_id, or the selected stop lists a monitored id among its
related_stop_ids, or a monitored stop lists the selected id among its own
related_stop_ids.  An absent related_stop_ids field contributes nothing, as
the optional chaining in the source evaluates to undefined. -/
def isAlreadyMonitored (prev : List Stop) (stop : Stop) : Bool :=
  prev.any (fun s =>
    s.stop_id == stop.stop_id
      || (stop.related_stop_ids.getD []).contains s.stop_id
      || (s.related_stop_ids.getD []).contains stop.stop_id)

/-- handleStopSelect in App.tsx: append the selected stop to the monitored
list unless the conflict check fires, in which case the list is unchanged. -/
def handleStopSelect (stop : Stop) (prev : List Stop) : List Stop :=
  if isAlreadyMonitored prev stop then prev else prev ++ [stop]

/-- handleStopSelect of App.tsx paired with the added flag of the store
contract of the specification: the first component is exactly
handleStopSelect, the second records whether the stop was appended. -/
def addStop (stop : Stop) (prev : List Stop) : List Stop × Bool :=
  if isAlreadyMonitored prev stop then (prev, false) else (prev ++ [stop], true)

/-- handleStopRemove in App.tsx: keep exactly the monitored stops whose
stop_id differs from the removed id. -/
def handleStopRemove (stopId : Int) (prev : List Stop) : List Stop :=
  prev.filter (fun s => s.stop_id != stopId)

end App

namespace StopsMap

/-- findRelatedStops in StopsMap.tsx: when the selected stop has no routes the
list containing only the stop itself is returned; otherwise every stop of the
universe with the same stop_name and at least one route in common with the
selected stop is kept. -/
def findRelatedStops (stop : Stop) (allStops : List Stop) : List Stop :=
  if stop.routes.isEmpty then [stop]
  else allStops.filter (fun s =>
    s.stop_name == stop.stop_name && s.routes.any (fun r => stop.routes.contains r))

/-- The related-id computation inlined in handleStopSelect of StopsMap.tsx:
the stop ids of findRelatedStops with every stop carrying the id of the
candidate itself filtered out.  This is the relate operation of the
specification contract for the stop grouper. -/
def relate (candidate : Stop) (stops : List Stop) : List Int :=
  ((findRelatedStops candidate stops).filter
    (fun s => s.stop_id != candidate.stop_id)).map (fun s => s.stop_id)

/-- handleStopSelect in StopsMap.tsx: enrich the clicked stop with the
computed related stop ids over the union of train and bus stops before
passing it to the selection callback of App.tsx. -/
def handleStopSelect (stop : Stop) (trainStops busStops : List Stop) : Stop :=
  { stop with related_stop_ids := some (relate stop (trainStops ++ busStops)) }

end StopsMap

namespace StopsList

/-- isStopMonitored in StopsList.tsx: a listed stop is marked as monitored
exactly when some monitored stop carries the same stop_id. -/
def isStopMonitored (monitoredStops : List Stop) (stop : Stop) : Bool :=
  monitoredStops.any (fun s => s.stop_id == stop.stop_id)

end StopsList

namespace ArrivalsList

/-- One step of the reduce in ArrivalsList (StopsList.tsx) that builds the
record mapping destination strings to arrival lists: when the destination key
of the arrival is already present the arrival is pushed onto that entry,
otherwise a fresh entry holding just this arrival is appended.  The record is
modelled as an association list in key insertion order, matching the
enumeration order of string-keyed javascript objects. -/
def insertArrival (acc : List (String × List Arrival)) (a : Arrival) :
    List (String × List Arrival) :=
  if acc.any (fun p => p.1 == a.destination) then
    acc.map (fun p => if p.1 == a.destination then (p.1, p.2 ++ [a]) else p)
  else
    acc ++ [(a.destination, [a])]

/-- arrivalsByDestination in ArrivalsList (StopsList.tsx): the reduce over the
fetched arrivals starting from the empty record. -/
def arrivalsByDestination (arrivals : List Arrival) : List (String × List Arrival) :=
  arrivals.foldl insertArrival []

/-- Record lookup: the arrival list stored under a destination key, the empty
list when the key is absent. -/
def groupGet (acc : List (String × List Arrival)) (d : String) : List Arrival :=
  (acc.find? (fun p => p.1 == d)).elim [] (fun p => p.2)

/-- The component state of ArrivalsList (StopsList.tsx): the arrivals array,
the error message and the loading flag held in useState hooks. -/
structure AggState where
  arrivals : List Arrival
  error : Option String
  loading : Bool
  deriving DecidableEq, Repr

/-- The initial hook state of ArrivalsList: empty arrivals, no error, not
loading. -/
def initState : AggState :=
  { arrivals := [], error := none, loading := false }

/-- Net effect of a successful run of fetchArrivals in ArrivalsList
(StopsList.tsx) on the hook state: setLoading true and setError null at entry,
setArrivals with the response data, setLoading false in the finally block. -/
def pollSuccess (data : List Arrival) (_s : AggState) : AggState :=
  { arrivals := data, error := none, loading := false }

/-- Net effect of a failed run of fetchArrivals in ArrivalsList
(StopsList.tsx) on the hook state: setLoading true and setError null at entry,
the thrown error is caught and setError records its message, setLoading false
in the finally block; setArrivals is never called on this path. -/
def pollFailure (msg : String) (s : AggState) : AggState :=
  { arrivals := s.arrivals, error := some msg, loading := false }

/-- What the ArrivalsList component returns to the consumer. -/
inductive View where
  | spinner : View
  | errorAlert : String → View
  | arrivalsView : List (String × List Arrival) → View
  deriving DecidableEq, Repr

/-- The early returns and main body of ArrivalsList (StopsList.tsx): a spinner
while loading with no data yet, otherwise the error alert alone whenever the
error state is set, otherwise the arrivals grouped by destination.  Error
messages produced by fetchArrivals are never the empty string, so an Option
faithfully models the truthiness test of the source. -/
def render (s : AggState) : View :=
  if s.loading && s.arrivals.isEmpty then View.spinner
  else
    match s.error with
    | some e => View.errorAlert e
    | none => View.arrivalsView (arrivalsByDestination s.arrivals)

/-- Idealized schedule of the polling effect in ArrivalsList (StopsList.tsx):
fetchArrivals is invoked immediately and then by setInterval every 30000
milliseconds; interval timer firings do not wait for the previous fetch to
complete, so poll number n starts at time 30000 * n. -/
def pollStart (n : Nat) : Nat := 30000 * n

/-- Poll n is outstanding at time t when t lies between its start and its
completion, the fetch taking dur n milliseconds. -/
def outstandingAt (dur : Nat → Nat) (n : Nat) (t : Nat) : Prop :=
  pollStart n ≤ t ∧ t < pollStart n + dur n

end ArrivalsList

namespace LocationSettings

/-- handleSubmit in LocationSettings.tsx.  The three text fields are modelled
after parsing: none stands for a non-numeric entry (parseFloat returned NaN),
some q for the parsed value.  The source first rejects when any parse failed,
then checks latitude, longitude and radius bounds in that order; on success
the error is cleared and onLocationUpdate is invoked with the parsed values,
modelled by the ok constructor (the error constructor means the submission is
rejected locally and no network call is made). -/
def handleSubmit (latitude longitude radius : Option ℚ) : Except String (ℚ × ℚ × ℚ) :=
  match latitude, longitude, radius with
  | some lat, some lon, some rad =>
    if lat < -90 ∨ lat > 90 then
      Except.error "Latitude must be between -90 and 90"
    else if lon < -180 ∨ lon > 180 then
      Except.error "Longitude must be between -180 and 180"
    else if rad ≤ 0 ∨ rad > 2 then
      Except.error "Radius must be between 0 and 2 miles"
    else
      Except.ok (lat, lon, rad)
  | _, _, _ => Except.error "Please enter valid numbers"

end LocationSettings

/-- The equivalence relation of the specification data model, stated from the
specification for comparison with the code: two stops are in the same class
when they share stop_name and at least one route, or when either lists the
stop_id of the other among its related_stop_ids. -/
def specSameClass (x y : Stop) : Prop :=
  (x.stop_name = y.stop_name ∧ ∃ r ∈ x.routes, r ∈ y.routes)
    ∨ y.stop_id ∈ x.related_stop_ids.getD []
    ∨ x.stop_id ∈ y.related_stop_ids.getD []

/-- The pairwise compatibility actually enforced by the conflict check of
handleStopSelect in App.tsx: distinct stop_ids and neither stop lists the
stop_id of the other among its related_stop_ids. -/
def noConflict (x y : Stop) : Prop :=
  x.stop_id ≠ y.stop_id
    ∧ x.stop_id ∉ y.related_stop_ids.getD []
    ∧ y.stop_id ∉ x.related_stop_ids.getD []

/-- Invariant of the monitored list: every two distinct entries are
conflict-free. -/
def storeInv (S : List Stop) : Prop :=
  S.Pairwise noConflict

/-- One user-driven transition of the monitored list in App.tsx: selecting a
stop from the list view (the StopsList interface carries no related_stop_ids,
so the stop arrives with the field absent), selecting a stop from the map view
(StopsMap attaches the computed related ids before calling back), or removing
a stop by id. -/
inductive Step : List Stop → List Stop → Prop
  | selectList (stop : Stop) (S : List Stop) (h : stop.related_stop_ids = none) :
      Step S (App.handleStopSelect stop S)
  | selectMap (stop : Stop) (trainStops busStops S : List Stop) :
      Step S (App.handleStopSelect (StopsMap.handleStopSelect stop trainStops busStops) S)
  | removeStop (stopId : Int) (S : List Stop) :
      Step S (App.handleStopRemove stopId S)

/-- Reachability of a monitored list from a starting list by a finite sequence
of selection and removal steps. -/
inductive Reach : List Stop → List Stop → Prop
  | refl (S : List Stop) : Reach S S
  | tail {S T U : List Stop} : Reach S T → Step T U → Reach S U

/-- Concrete stop builder used by the concrete instances below: coordinates
and distance are irrelevant to every modelled operation and set to zero. -/
def mkStop (i : Int) (name : String) (rs : List String) (rel : Option (List Int)) : Stop :=
  { stop_id := i, stop_name := name, latitude := 0, longitude := 0,
    routes := rs, distance := 0, related_stop_ids := rel }

/-- A northbound bus stop as returned by a nearby search (no related ids). -/
def cexStopA : Stop := mkStop 1 "State/Lake" ["22"] none

/-- The paired southbound stop: same name, same route, different id, no
related ids. -/
def cexStopB : Stop := mkStop 2 "State/Lake" ["22"] none

/-- A stop with an empty route list. -/
def cexStopE : Stop := mkStop 3 "State/Lake" [] none

/-- A concrete arrival twelve minutes out. -/
def cexArrLate : Arrival :=
  { route := "22", destination := "Howard", arrival_time := "12:12",
    minutes := 12, is_delayed := false, route_color := none, stop_id := 1001 }

/-- A concrete arrival four minutes out, same destination. -/
def cexArrSoon : Arrival :=
  { route := "22", destination := "Howard", arrival_time := "12:04",
    minutes := 4, is_delayed := false, route_color := none, stop_id := 1001 }

/-- A concrete fetch error message as produced by fetchArrivals. -/
def cexFailMsg : String := "Error fetching arrivals: HTTP error! status: 500"

instance (x y : Stop) : Decidable (specSameClass x y) := by
  unfold specSameClass; infer_instance

instance (x y : Stop) : Decidable (noConflict x y) := by
  unfold noConflict; infer_instance

instance (S : List Stop) : Decidable (storeInv S) := by
  unfold storeInv; exact List.instDecidablePairwise S

instance (dur : Nat → Nat) (n t : Nat) : Decidable (ArrivalsList.outstandingAt dur n t) := by
  unfold ArrivalsList.outstandingAt; infer_instance

/-! ### Helper lemmas -/

/-- The conflict check of handleStopSelect fails exactly when some previously
monitored stop matches the selected stop by id or by related-id linkage in
either direction. -/
theorem isAlreadyMonitored_eq_true_iff (prev : List Stop) (stop : Stop) :
    App.isAlreadyMonitored prev stop = true ↔
      ∃ s ∈ prev, stop.stop_id = s.stop_id
        ∨ s.stop_id ∈ stop.related_stop_ids.getD []
        ∨ stop.stop_id ∈ s.related_stop_ids.getD [] := by
  simp only [App.isAlreadyMonitored, List.elem_eq_mem, List.any_eq_true, Bool.or_eq_true,
    beq_iff_eq, decide_eq_true_eq]
  constructor
  · rintro ⟨s, hs, (h | h) | h⟩
    · exact ⟨s, hs, Or.inl h.symm⟩
    · exact ⟨s, hs, Or.inr (Or.inl h)⟩
    · exact ⟨s, hs, Or.inr (Or.inr h)⟩
  · rintro ⟨s, hs, h | h | h⟩
    · exact ⟨s, hs, Or.inl (Or.inl h.symm)⟩
    · exact ⟨s, hs, Or.inl (Or.inr h)⟩
    · exact ⟨s, hs, Or.inr h⟩

/-- The conflict check of handleStopSelect passes exactly when the selected
stop is conflict-free with every previously monitored stop. -/
theorem isAlreadyMonitored_eq_false_iff (prev : List Stop) (stop : Stop) :
    App.isAlreadyMonitored prev stop = false ↔
      ∀ s ∈ prev, s.stop_id ≠ stop.stop_id
        ∧ s.stop_id ∉ stop.related_stop_ids.getD []
        ∧ stop.stop_id ∉ s.related_stop_ids.getD [] := by
  simp only [App.isAlreadyMonitored, List.elem_eq_mem, List.any_eq_false, Bool.or_eq_true,
    beq_iff_eq, decide_eq_true_eq, not_or, ne_eq]
  constructor
  · intro h s hs
    obtain ⟨⟨h1, h2⟩, h3⟩ := h s hs
    exact ⟨h1, h2, h3⟩
  · intro h s hs
    obtain ⟨h1, h2, h3⟩ := h s hs
    exact ⟨⟨h1, h2⟩, h3⟩

/-- When the conflict check fires the monitored list is returned unchanged
with the added flag false. -/
theorem addStop_of_monitored {S : List Stop} {x : Stop}
    (h : App.isAlreadyMonitored S x = true) : App.addStop x S = (S, false) := by
  simp [App.addStop, h]

/-- When the conflict check passes the stop is appended and the added flag is
true. -/
theorem addStop_of_not_monitored {S : List Stop} {x : Stop}
    (h : App.isAlreadyMonitored S x = false) : App.addStop x S = (S ++ [x], true) := by
  simp [App.addStop, h]

/-- A stop always conflicts with a list containing a stop of its own id, in
particular with a list it was just appended to. -/
theorem isAlreadyMonitored_append_self (S : List Stop) (x : Stop) :
    App.isAlreadyMonitored (S ++ [x]) x = true := by
  simp [App.isAlreadyMonitored]

/-- Selecting a stop preserves the pairwise no-conflict invariant: a stop is
appended only when the conflict check cleared it against every current
entry. -/
theorem handleStopSelect_storeInv (x : Stop) (S : List Stop) (h : storeInv S) :
    storeInv (App.handleStopSelect x S) := by
  unfold App.handleStopSelect
  by_cases hm : App.isAlreadyMonitored S x = true
  · rw [if_pos hm]; exact h
  · have hf : App.isAlreadyMonitored S x = false := by
      simpa using hm
    rw [if_neg hm]
    refine List.pairwise_append.2 ⟨h, by simp, ?_⟩
    intro s hs y hy
    rw [List.mem_singleton] at hy
    rw [hy]
    exact (isAlreadyMonitored_eq_false_iff S x).1 hf s hs

/-- Removing a stop preserves the pairwise no-conflict invariant, removal
being a filter. -/
theorem handleStopRemove_storeInv (i : Int) (S : List Stop) (h : storeInv S) :
    storeInv (App.handleStopRemove i S) :=
  h.sublist (List.filter_sublist S)

/-- Every user-driven transition preserves the pairwise no-conflict
invariant. -/
theorem step_storeInv {S T : List Stop} (hst : Step S T) (h : storeInv S) :
    storeInv T := by
  cases hst with
  | selectList stop S h0 => exact handleStopSelect_storeInv _ _ h
  | selectMap stop trainStops busStops S => exact handleStopSelect_storeInv _ _ h
  | removeStop i S => exact handleStopRemove_storeInv _ _ h

/-- C1 (counterexample): the claimed invariant fails on a reachable state.
Starting from the empty monitored set, selecting the stop cexStopA from the
list view and then its opposite-direction pair cexStopB (same stop_name, same
route, different id, both arriving without related_stop_ids, as the list
selection path passes stops) yields the monitored list holding both; the two
are distinct entities of the same equivalence class of the specification, so
the set does not contain at most one entity per class. -/
theorem monitored_inv_counterexample :
    Reach [] [cexStopA, cexStopB]
      ∧ cexStopA ∈ ([cexStopA, cexStopB] : List Stop)
      ∧ cexStopB ∈ ([cexStopA, cexStopB] : List Stop)
      ∧ specSameClass cexStopA cexStopB
      ∧ cexStopA ≠ cexStopB := by
  refine ⟨?_, by decide, by decide, by decide, by decide⟩
  have h1 : App.handleStopSelect cexStopA [] = [cexStopA] := by decide
  have h2 : App.handleStopSelect cexStopB [cexStopA] = [cexStopA, cexStopB] := by decide
  exact Reach.tail (Reach.tail (Reach.refl []) (h1 ▸ Step.selectList cexStopA [] rfl))
    (h2 ▸ Step.selectList cexStopB [cexStopA] rfl)

/-- C1 (amended): for every state of the monitored set reachable from the
empty set or from a loaded snapshot satisfying the pairwise no-conflict
property, by list selection, map selection and removal, every two distinct
entries have distinct stop_ids and neither lists the stop_id of the other
among its related_stop_ids.  The name-plus-route-overlap part of the claimed
equivalence relation is not enforced when the selected stop arrives without
related_stop_ids attached, as the counterexample shows. -/
theorem monitored_inv_reachable (S0 S : List Stop) (h0 : storeInv S0)
    (h : Reach S0 S) : storeInv S := by
  induction h with
  | refl => exact h0
  | tail _ hstep ih => exact step_storeInv hstep ih

/-- Witness for the amended C1 theorem at the empty start and a one-step
reachable state. -/
theorem monitored_inv_reachable_witness : storeInv [cexStopA] := by
  have h1 : App.handleStopSelect cexStopA [] = [cexStopA] := by decide
  exact monitored_inv_reachable [] [cexStopA] (by decide)
    (Reach.tail (Reach.refl []) (h1 ▸ Step.selectList cexStopA [] rfl))

/-- C2: the add operation of the monitored-stop store (handleStopSelect of
App.tsx with its added flag) rejects with the set unchanged exactly when the
selected stop matches a monitored stop by id, lists a monitored id among its
related_stop_ids, or is listed among the related_stop_ids of a monitored
stop; otherwise the stop is appended.  Calling add twice in a row yields the
same final set as calling it once and the second call reports added false. -/
theorem addStop_spec (S : List Stop) (x : Stop) :
    ((App.addStop x S).2 = false ↔
        ∃ s ∈ S, x.stop_id = s.stop_id
          ∨ s.stop_id ∈ x.related_stop_ids.getD []
          ∨ x.stop_id ∈ s.related_stop_ids.getD [])
      ∧ ((App.addStop x S).2 = false → (App.addStop x S).1 = S)
      ∧ ((App.addStop x S).2 = true → (App.addStop x S).1 = S ++ [x])
      ∧ (App.addStop x (App.addStop x S).1).1 = (App.addStop x S).1
      ∧ (App.addStop x (App.addStop x S).1).2 = false := by
  by_cases hm : App.isAlreadyMonitored S x = true
  · rw [addStop_of_monitored hm]
    refine ⟨?_, fun _ => rfl, by simp, by rw [addStop_of_monitored hm], ?_⟩
    · simpa using (isAlreadyMonitored_eq_true_iff S x).1 hm
    · rw [addStop_of_monitored hm]
  · have hf : App.isAlreadyMonitored S x = false := by simpa using hm
    rw [addStop_of_not_monitored hf]
    refine ⟨?_, by simp, fun _ => rfl, ?_, ?_⟩
    · simp only [Bool.true_eq_false, false_iff]
      intro hc
      exact hm ((isAlreadyMonitored_eq_true_iff S x).2 hc)
    · rw [addStop_of_monitored (isAlreadyMonitored_append_self S x)]
    · rw [addStop_of_monitored (isAlreadyMonitored_append_self S x)]

/-- Witness for the C2 theorem: adding a fresh stop to the empty set appends
it with the added flag true, and the immediate second add is rejected. -/
theorem addStop_spec_witness :
    (App.addStop cexStopA []).1 = [] ++ [cexStopA]
      ∧ (App.addStop cexStopA (App.addStop cexStopA []).1).2 = false := by
  refine ⟨(addStop_spec [] cexStopA).2.2.1 (by decide), (addStop_spec [] cexStopA).2.2.2.2⟩

/-- Membership in the computed relate list: an id belongs to it exactly when
some stop of the universe carries that id, differs from the candidate by id,
matches its name and overlaps its routes.  Route overlap forces the routes of
the candidate to be non-empty, so no empty-routes side condition is needed. -/
theorem mem_relate_iff (c : Stop) (u : List Stop) (i : Int) :
    i ∈ StopsMap.relate c u ↔
      ∃ s ∈ u, s.stop_id = i ∧ s.stop_id ≠ c.stop_id ∧ s.stop_name = c.stop_name
        ∧ ∃ r ∈ s.routes, r ∈ c.routes := by
  unfold StopsMap.relate StopsMap.findRelatedStops
  by_cases hc : c.routes.isEmpty
  · rw [if_pos hc]
    have hnil : c.routes = [] := List.isEmpty_iff.1 hc
    simp [hnil]
  · rw [if_neg hc]
    simp only [List.mem_map, List.mem_filter, Bool.and_eq_true, beq_iff_eq, bne_iff_ne,
      List.any_eq_true, List.elem_eq_mem, decide_eq_true_eq]
    constructor
    · rintro ⟨s, ⟨⟨hs, hname, r, hr1, hr2⟩, hid⟩, rfl⟩
      exact ⟨s, hs, rfl, hid, hname, r, hr1, hr2⟩
    · rintro ⟨s, hs, rfl, hid, hname, r, hr1, hr2⟩
      exact ⟨s, ⟨⟨hs, hname, r, hr1, hr2⟩, hid⟩, rfl⟩

/-- C5: over a universe whose stop_ids identify stops uniquely against the
candidate (the specification declares stop_id globally unique), the relate
computation of StopsMap returns the empty list when the candidate has no
routes, and otherwise returns exactly the ids of the stops of the universe
other than the candidate itself whose stop_name equals that of the candidate
and whose routes intersect its routes. -/
theorem relate_spec (candidate : Stop) (u : List Stop)
    (hid : ∀ s ∈ u, s.stop_id = candidate.stop_id → s = candidate) :
    (candidate.routes = [] → StopsMap.relate candidate u = [])
      ∧ ∀ i, (i ∈ StopsMap.relate candidate u ↔
          ∃ s ∈ u, s ≠ candidate ∧ s.stop_id = i ∧ s.stop_name = candidate.stop_name
            ∧ ∃ r ∈ s.routes, r ∈ candidate.routes) := by
  constructor
  · intro hnil
    rw [List.eq_nil_iff_forall_not_mem]
    intro i hi
    obtain ⟨s, _, _, _, _, r, _, hr⟩ := (mem_relate_iff candidate u i).1 hi
    rw [hnil] at hr
    exact (List.not_mem_nil r) hr
  · intro i
    rw [mem_relate_iff]
    constructor
    · rintro ⟨s, hs, hsi, hneq, hname, hov⟩
      exact ⟨s, hs, fun he => hneq (he ▸ rfl), hsi, hname, hov⟩
    · rintro ⟨s, hs, hne, hsi, hname, hov⟩
      exact ⟨s, hs, hsi, fun he => hne (hid s hs he), hname, hov⟩

/-- Witness for the C5 theorem: the opposite-direction pair of cexStopA is
related to it over the two-stop universe, and a candidate with empty routes
relates to nothing. -/
theorem relate_spec_witness :
    ((2 : Int) ∈ StopsMap.relate cexStopA [cexStopA, cexStopB])
      ∧ StopsMap.relate cexStopE [cexStopE, cexStopB] = [] := by
  constructor
  · exact ((relate_spec cexStopA [cexStopA, cexStopB] (by decide)).2 2).2 (by decide)
  · exact (relate_spec cexStopE [cexStopE, cexStopB] (by decide)).1 (by decide)

/-- C6: the computed relation is symmetric over a fixed universe with unique
stop_ids containing both stops: when the id of B appears in the relate list of
A, the id of A appears in the relate list of B.  When either routes list is
empty the hypothesis cannot hold, so the statement covers those cases
vacuously. -/
theorem relate_symm (A B : Stop) (u : List Stop) (hA : A ∈ u) (hB : B ∈ u)
    (huniq : ∀ s ∈ u, ∀ t ∈ u, s.stop_id = t.stop_id → s = t)
    (h : B.stop_id ∈ StopsMap.relate A u) : A.stop_id ∈ StopsMap.relate B u := by
  obtain ⟨s, hs, hsi, hneq, hname, r, hr1, hr2⟩ := (mem_relate_iff A u B.stop_id).1 h
  have hsB : s = B := huniq s hs B hB hsi
  rw [hsB] at hneq hname hr1
  exact (mem_relate_iff B u A.stop_id).2
    ⟨A, hA, rfl, Ne.symm hneq, hname.symm, r, hr2, hr1⟩

/-- Witness for the C6 theorem at the concrete paired stops. -/
theorem relate_symm_witness : (1 : Int) ∈ StopsMap.relate cexStopB [cexStopA, cexStopB] :=
  relate_symm cexStopA cexStopB [cexStopA, cexStopB] (by decide) (by decide) (by decide)
    (by decide)

/-- Removing the unique entry carrying a present id shortens the list by
exactly one. -/
theorem length_filter_ne_of_mem {S : List Stop} {i : Int}
    (hnd : (S.map Stop.stop_id).Nodup) (hmem : ∃ s ∈ S, s.stop_id = i) :
    (S.filter (fun s => s.stop_id != i)).length + 1 = S.length := by
  induction S with
  | nil => simp at hmem
  | cons a S ih =>
    rw [List.map_cons, List.nodup_cons] at hnd
    obtain ⟨ha, hnd⟩ := hnd
    by_cases hai : a.stop_id = i
    · have hrest : ∀ s ∈ S, s.stop_id ≠ i := by
        intro s hs he
        exact ha (hai ▸ he ▸ List.mem_map_of_mem Stop.stop_id hs)
      rw [List.filter_cons_of_neg (by simp [hai])]
      rw [List.filter_eq_self.2 (fun s hs => by simp [hrest s hs])]
      simp
    · rw [List.filter_cons_of_pos (by simp [hai])]
      have hmem2 : ∃ s ∈ S, s.stop_id = i := by
        obtain ⟨s, hs, hsi⟩ := hmem
        rcases List.mem_cons.1 hs with rfl | hs2
        · exact absurd hsi hai
        · exact ⟨s, hs2, hsi⟩
      simpa using ih hnd hmem2

/-- C7: on a monitored list with unique stop_ids, removal keeps exactly the
entries whose stop_id differs from the removed id (no cascade to related
ids), the length drops by exactly one when the id was present and the list is
unchanged when it was absent, and a second removal of the same id is a
no-op. -/
theorem handleStopRemove_spec (S : List Stop) (i : Int)
    (hnd : (S.map Stop.stop_id).Nodup) :
    (∀ s, s ∈ App.handleStopRemove i S ↔ s ∈ S ∧ s.stop_id ≠ i)
      ∧ ((∃ s ∈ S, s.stop_id = i) → (App.handleStopRemove i S).length + 1 = S.length)
      ∧ ((∀ s ∈ S, s.stop_id ≠ i) → App.handleStopRemove i S = S)
      ∧ App.handleStopRemove i (App.handleStopRemove i S) = App.handleStopRemove i S := by
  refine ⟨?_, fun h => length_filter_ne_of_mem hnd h, ?_, ?_⟩
  · intro s
    simp [App.handleStopRemove, List.mem_filter]
  · intro h
    exact List.filter_eq_self.2 (fun s hs => by simp [h s hs])
  · unfold App.handleStopRemove
    rw [List.filter_filter]
    simp

/-- Witness for the C7 theorem: removing id 1 from the two concrete monitored
stops drops the length from two to one. -/
theorem handleStopRemove_spec_witness :
    (App.handleStopRemove 1 [cexStopA, cexStopB]).length + 1
      = ([cexStopA, cexStopB] : List Stop).length :=
  (handleStopRemove_spec [cexStopA, cexStopB] 1 (by decide)).2.1 (by decide)

/-- C10: the already-monitored indicator of the stop list tests only exact
stop_id equality against the monitored list, so a stop related to a monitored
entity but carrying a different stop_id is reported as not monitored and
stays selectable. -/
theorem isStopMonitored_spec (monitored : List Stop) (stop : Stop) :
    (StopsList.isStopMonitored monitored stop = true
        ↔ ∃ s ∈ monitored, s.stop_id = stop.stop_id)
      ∧ ((∀ s ∈ monitored, s.stop_id ≠ stop.stop_id) →
          StopsList.isStopMonitored monitored stop = false) := by
  constructor
  · simp [StopsList.isStopMonitored, List.any_eq_true]
  · intro h
    simp only [StopsList.isStopMonitored, List.any_eq_false]
    intro s hs
    simp [h s hs]

/-- Witness for the C10 theorem: cexStopB is in the same specification
equivalence class as the monitored cexStopA (same name, shared route) yet is
reported as not monitored because its stop_id differs. -/
theorem isStopMonitored_spec_witness :
    specSameClass cexStopA cexStopB
      ∧ StopsList.isStopMonitored [cexStopA] cexStopB = false :=
  ⟨by decide, (isStopMonitored_spec [cexStopA] cexStopB).2 (by decide)⟩

/-- Inserting an arrival appends it to the entry under its own destination
key and leaves every other entry unchanged. -/
theorem groupGet_insertArrival (acc : List (String × List Arrival)) (a : Arrival)
    (d : String) :
    ArrivalsList.groupGet (ArrivalsList.insertArrival acc a) d
      = ArrivalsList.groupGet acc d ++ (if a.destination = d then [a] else []) := by
  unfold ArrivalsList.insertArrival ArrivalsList.groupGet
  by_cases hin : acc.any (fun p => p.1 == a.destination) = true
  · rw [if_pos hin, List.find?_map]
    have hcomp : ((fun p : String × List Arrival => p.1 == d) ∘
        (fun p => if p.1 == a.destination then (p.1, p.2 ++ [a]) else p))
          = fun p => p.1 == d := by
      funext p
      by_cases hp : p.1 = a.destination
      · simp [hp]
      · simp [hp]
    rw [hcomp]
    cases hfind : acc.find? (fun p => p.1 == d) with
    | none =>
      by_cases had : a.destination = d
      · exfalso
        rw [List.find?_eq_none] at hfind
        obtain ⟨p, hp, hpd⟩ := List.any_eq_true.1 hin
        exact hfind p hp (by rw [had] at hpd; exact hpd)
      · simp [had]
    | some p0 =>
      have hd : p0.1 = d := by simpa using List.find?_some hfind
      by_cases had : a.destination = d
      · have hpa : p0.1 = a.destination := by rw [hd, had]
        simp [hpa, had]
      · have hpa : p0.1 ≠ a.destination := by
          rw [hd]
          exact fun h => had h.symm
        simp [hpa, had]
  · have hf : acc.any (fun p => p.1 == a.destination) = false := by
      cases h : acc.any (fun p => p.1 == a.destination)
      · rfl
      · exact absurd h hin
    rw [if_neg hin, List.find?_append]
    cases hfind : acc.find? (fun p => p.1 == d) with
    | none =>
      by_cases had : a.destination = d
      · simp [Option.or, had]
      · simp [Option.or, had]
    | some p0 =>
      have hd : p0.1 = d := by simpa using List.find?_some hfind
      have hmem : p0 ∈ acc := List.mem_of_find?_eq_some hfind
      have had : a.destination ≠ d := by
        intro he
        have hne := List.any_eq_false.1 hf p0 hmem
        simp [hd, he] at hne
      simp [Option.or, had]

/-- The group stored under each destination key after folding the whole
arrival list from any accumulator: the previous group followed by the
arrivals of the list carrying that destination, in list order. -/
theorem groupGet_foldl (l : List Arrival) :
    ∀ (acc : List (String × List Arrival)) (d : String),
      ArrivalsList.groupGet (l.foldl ArrivalsList.insertArrival acc) d
        = ArrivalsList.groupGet acc d ++ l.filter (fun a => a.destination == d) := by
  induction l with
  | nil => intro acc d; simp
  | cons a l ih =>
    intro acc d
    rw [List.foldl_cons, ih, groupGet_insertArrival]
    by_cases had : a.destination = d
    · simp [List.filter_cons, had]
    · simp [List.filter_cons, had]

/-- The group stored under each destination key by arrivalsByDestination is
exactly the subsequence of fetched arrivals with that destination, kept in
fetch order. -/
theorem groupGet_arrivalsByDestination (l : List Arrival) (d : String) :
    ArrivalsList.groupGet (ArrivalsList.arrivalsByDestination l) d
      = l.filter (fun a => a.destination == d) := by
  unfold ArrivalsList.arrivalsByDestination
  rw [groupGet_foldl]
  simp [ArrivalsList.groupGet]

/-- C3 (counterexample): the aggregation applies no sort.  When the poll
returns the twelve-minute arrival before the four-minute arrival for the same
destination, the Howard group keeps that order, which is not ascending by
minutes, contradicting the claim that groups are ordered ascending regardless
of the order in which the upstream returned them. -/
theorem arrivals_sorted_counterexample :
    ArrivalsList.groupGet
        (ArrivalsList.arrivalsByDestination [cexArrLate, cexArrSoon]) "Howard"
        = [cexArrLate, cexArrSoon]
      ∧ ¬ List.Pairwise (fun x y : Arrival => x.minutes ≤ y.minutes)
          (ArrivalsList.groupGet
            (ArrivalsList.arrivalsByDestination [cexArrLate, cexArrSoon]) "Howard") := by
  constructor
  · decide
  · decide

/-- C3 (amended): the aggregation groups arrivals by exact string equality of
destination — an arrival lands in the group of a destination exactly when its
destination string equals it — and within each group the arrivals appear in
the order the poll returned them; in particular each group is ascending by
minutes whenever the sequence returned by the poll was. -/
theorem arrivalsByDestination_spec (l : List Arrival) (d : String) :
    ArrivalsList.groupGet (ArrivalsList.arrivalsByDestination l) d
        = l.filter (fun a => a.destination == d)
      ∧ (∀ a : Arrival,
          a ∈ ArrivalsList.groupGet (ArrivalsList.arrivalsByDestination l) d
            ↔ a ∈ l ∧ a.destination = d)
      ∧ (List.Pairwise (fun x y : Arrival => x.minutes ≤ y.minutes) l →
          List.Pairwise (fun x y : Arrival => x.minutes ≤ y.minutes)
            (ArrivalsList.groupGet (ArrivalsList.arrivalsByDestination l) d)) := by
  refine ⟨groupGet_arrivalsByDestination l d, ?_, ?_⟩
  · intro a
    rw [groupGet_arrivalsByDestination]
    simp [List.mem_filter]
  · intro h
    rw [groupGet_arrivalsByDestination]
    exact h.sublist (List.filter_sublist l)

/-- Witness for the amended C3 theorem: a poll already ascending by minutes
yields an ascending Howard group. -/
theorem arrivalsByDestination_spec_witness :
    List.Pairwise (fun x y : Arrival => x.minutes ≤ y.minutes)
      (ArrivalsList.groupGet
        (ArrivalsList.arrivalsByDestination [cexArrSoon, cexArrLate]) "Howard") :=
  (arrivalsByDestination_spec [cexArrSoon, cexArrLate] "Howard").2.2 (by decide)

/-- C4 (counterexample): after one successful poll and one failed poll the
stored arrivals are retained, but the component renders only the error alert,
not the retained data: the consumer does not observe the most recent
successful data together with the error, contradicting the claim. -/
theorem degraded_view_counterexample :
    (ArrivalsList.pollFailure cexFailMsg
        (ArrivalsList.pollSuccess [cexArrSoon] ArrivalsList.initState)).arrivals
        = [cexArrSoon]
      ∧ ArrivalsList.render (ArrivalsList.pollFailure cexFailMsg
          (ArrivalsList.pollSuccess [cexArrSoon] ArrivalsList.initState))
        = ArrivalsList.View.errorAlert cexFailMsg
      ∧ ArrivalsList.render (ArrivalsList.pollFailure cexFailMsg
          (ArrivalsList.pollSuccess [cexArrSoon] ArrivalsList.initState))
        ≠ ArrivalsList.View.arrivalsView (ArrivalsList.arrivalsByDestination [cexArrSoon]) := by
  refine ⟨rfl, rfl, by decide⟩

/-- C4 (amended): a failed poll leaves the previously aggregated arrival data
untouched in the component state, and the retained data is rendered again by
the next successful poll; while the error is set, however, the consumer
observes only the error alert, not the retained data. -/
theorem degraded_state_spec (s : ArrivalsList.AggState) (msg : String) :
    (ArrivalsList.pollFailure msg s).arrivals = s.arrivals
      ∧ ArrivalsList.render (ArrivalsList.pollFailure msg s)
          = ArrivalsList.View.errorAlert msg
      ∧ ∀ data : List Arrival,
          ArrivalsList.render
              (ArrivalsList.pollSuccess data (ArrivalsList.pollFailure msg s))
            = ArrivalsList.View.arrivalsView (ArrivalsList.arrivalsByDestination data) := by
  refine ⟨rfl, ?_, ?_⟩
  · unfold ArrivalsList.render ArrivalsList.pollFailure
    simp
  · intro data
    unfold ArrivalsList.render ArrivalsList.pollSuccess
    simp

/-- C8 (counterexample): a non-numeric entry in either field yields the same
generic message, which names no field, so the non-numeric rejection is not
field-specific as claimed; the bound-violation messages do name their
fields. -/
theorem invalid_input_counterexample :
    LocationSettings.handleSubmit none (some 0) (some 1)
        = Except.error "Please enter valid numbers"
      ∧ LocationSettings.handleSubmit (some 0) (some 0) none
        = Except.error "Please enter valid numbers"
      ∧ ("Please enter valid numbers" : String) ≠ "Latitude must be between -90 and 90"
      ∧ ("Please enter valid numbers" : String) ≠ "Radius must be between 0 and 2 miles" := by
  exact ⟨rfl, rfl, by decide, by decide⟩

/-- C8 (amended): a non-numeric entry in any field is rejected locally with
the generic message asking for valid numbers; latitude outside -90 to 90,
longitude outside -180 to 180 and radius outside the half-open interval from
0 exclusive to 2 inclusive are rejected locally with field-specific messages,
checked in that order; in all rejection cases no network call is made, and
otherwise the error is cleared and the search proceeds with the parsed
values. -/
theorem handleSubmit_spec :
    (∀ latO lonO radO : Option ℚ, (latO = none ∨ lonO = none ∨ radO = none) →
        LocationSettings.handleSubmit latO lonO radO
          = Except.error "Please enter valid numbers")
      ∧ (∀ lat lon rad : ℚ, (lat < -90 ∨ 90 < lat) →
          LocationSettings.handleSubmit (some lat) (some lon) (some rad)
            = Except.error "Latitude must be between -90 and 90")
      ∧ (∀ lat lon rad : ℚ, -90 ≤ lat → lat ≤ 90 → (lon < -180 ∨ 180 < lon) →
          LocationSettings.handleSubmit (some lat) (some lon) (some rad)
            = Except.error "Longitude must be between -180 and 180")
      ∧ (∀ lat lon rad : ℚ, -90 ≤ lat → lat ≤ 90 → -180 ≤ lon → lon ≤ 180 →
          (rad ≤ 0 ∨ 2 < rad) →
          LocationSettings.handleSubmit (some lat) (some lon) (some rad)
            = Except.error "Radius must be between 0 and 2 miles")
      ∧ (∀ lat lon rad : ℚ, -90 ≤ lat → lat ≤ 90 → -180 ≤ lon → lon ≤ 180 →
          0 < rad → rad ≤ 2 →
          LocationSettings.handleSubmit (some lat) (some lon) (some rad)
            = Except.ok (lat, lon, rad)) := by
  refine ⟨?_, ?_, ?_, ?_, ?_⟩
  · intro latO lonO radO h
    rcases latO with _ | la
    · rfl
    · rcases lonO with _ | lo
      · rfl
      · rcases radO with _ | ra
        · rfl
        · rcases h with h | h | h <;> simp at h
  · intro lat lon rad h
    simp only [LocationSettings.handleSubmit]
    rw [if_pos h]
  · intro lat lon rad h1 h2 h
    simp only [LocationSettings.handleSubmit]
    rw [if_neg (by rw [not_or]; exact ⟨not_lt.2 h1, not_lt.2 h2⟩), if_pos h]
  · intro lat lon rad h1 h2 h3 h4 h
    simp only [LocationSettings.handleSubmit]
    rw [if_neg (by rw [not_or]; exact ⟨not_lt.2 h1, not_lt.2 h2⟩),
      if_neg (by rw [not_or]; exact ⟨not_lt.2 h3, not_lt.2 h4⟩), if_pos h]
  · intro lat lon rad h1 h2 h3 h4 h5 h6
    simp only [LocationSettings.handleSubmit]
    rw [if_neg (by rw [not_or]; exact ⟨not_lt.2 h1, not_lt.2 h2⟩),
      if_neg (by rw [not_or]; exact ⟨not_lt.2 h3, not_lt.2 h4⟩),
      if_neg (by rw [not_or]; exact ⟨not_le.2 h5, not_lt.2 h6⟩)]

/-- Witness for the amended C8 theorem at concrete inputs covering every
branch. -/
theorem handleSubmit_spec_witness :
    LocationSettings.handleSubmit none (some 0) (some 1)
        = Except.error "Please enter valid numbers"
      ∧ LocationSettings.handleSubmit (some 100) (some 0) (some 1)
        = Except.error "Latitude must be between -90 and 90"
      ∧ LocationSettings.handleSubmit (some 0) (some 200) (some 1)
        = Except.error "Longitude must be between -180 and 180"
      ∧ LocationSettings.handleSubmit (some 0) (some 0) (some 3)
        = Except.error "Radius must be between 0 and 2 miles"
      ∧ LocationSettings.handleSubmit (some 41) (some (-87)) (some 1)
        = Except.ok (41, -87, 1) := by
  obtain ⟨h1, h2, h3, h4, h5⟩ := handleSubmit_spec
  exact ⟨h1 none (some 0) (some 1) (Or.inl rfl),
    h2 100 0 1 (Or.inr (by norm_num)),
    h3 0 200 1 (by norm_num) (by norm_num) (Or.inr (by norm_num)),
    h4 0 0 3 (by norm_num) (by norm_num) (by norm_num) (by norm_num) (Or.inr (by norm_num)),
    h5 41 (-87) 1 (by norm_num) (by norm_num) (by norm_num) (by norm_num)
      (by norm_num) (by norm_num)⟩

/-- C9 (counterexample): under the interval schedule of the source effect a
fetch lasting 40000 milliseconds means poll 1 starts at 30000 milliseconds
while poll 0 is still outstanding, so a new poll for the same entity can
start while the previous one is outstanding, contradicting the claim. -/
theorem poll_overlap_counterexample :
    ArrivalsList.outstandingAt (fun _ => 40000) 0 (ArrivalsList.pollStart 1)
      ∧ (0 : Nat) ≠ 1 := by
  exact ⟨by decide, by decide⟩

/-- C9 (amended): the repeating 30-second interval timer fires regardless of
fetch completion, so consecutive polls of one entity are sequential exactly
when fetches keep within the 30-second cadence: whenever every fetch duration
is at most 30000 milliseconds, every earlier poll completes no later than the
start of any later poll. -/
theorem poll_sequential_of_fast (dur : Nat → Nat) (hdur : ∀ k, dur k ≤ 30000)
    (n m : Nat) (h : n < m) :
    ArrivalsList.pollStart n + dur n ≤ ArrivalsList.pollStart m := by
  unfold ArrivalsList.pollStart
  calc 30000 * n + dur n ≤ 30000 * n + 30000 := Nat.add_le_add_left (hdur n) _
    _ = 30000 * (n + 1) := by ring
    _ ≤ 30000 * m := Nat.mul_le_mul_left 30000 h

/-- Witness for the amended C9 theorem with a 10-second fetch. -/
theorem poll_sequential_of_fast_witness :
    ArrivalsList.pollStart 0 + (fun _ : Nat => 10000) 0 ≤ ArrivalsList.pollStart 1 :=
  poll_sequential_of_fast (fun _ => 10000) (fun _ => by norm_num) 0 1 (by norm_num)

end CTA
